import Mathlib

/-!
Shallow embedding of the GymPulse time-series ingestion engine:
the per-series append/dedup/retention logic of the static updater
(src/unnamed/part_000) and of the background server
(src/server/server.js), the multi-tier source resolver and sampler
(gymService in src/server/server.js), the refresh scheduler of the
client app (src/unnamed/part_000, App component), and the chart
aggregators (src/unnamed/part_002).

Timestamps are epoch milliseconds, modelled as Int.  Every call to
Date.now() inside one synchronous block of the source is modelled as a
single instant passed in as a parameter.
-/

/-- A stored sample: the DataPoint interface of src/unnamed/part_002
(timestamp: epoch ms, visitors, maxCapacity). -/
structure DataPoint where
  timestamp : Int
  visitors : Int
  maxCapacity : Int
deriving DecidableEq

/-- JS Array.prototype.slice with a negative argument: arr.slice(-n)
returns the last n elements (the whole array when it is shorter). -/
def sliceLast (n : Nat) (l : List α) : List α :=
  l.drop (l.length - n)

/-- One per-gym update of run() in the static updater
(src/unnamed/part_000, lines 52-77).  On a successful fetch (visitors
is some v) a new point at the current time is built; it is pushed
unless a last stored point exists whose timestamp is at most 60000 ms
old; afterwards the history is cut to its last 5000 entries when it
exceeds 5000.  A failed fetch (none) changes nothing. -/
def updateGym (now : Int) (visitors : Option Int) (hist : List DataPoint) :
    List DataPoint :=
  match visitors with
  | none => hist
  | some v =>
    let newPoint : DataPoint := { timestamp := now, visitors := v, maxCapacity := 300 }
    let pushed :=
      match hist.getLast? with
      | none => hist ++ [newPoint]
      | some last => if now - last.timestamp > 60000 then hist ++ [newPoint] else hist
    if pushed.length > 5000 then sliceLast 5000 pushed else pushed

/-- The append of fetchGymData in src/server/server.js (lines 156-169):
the new point is pushed unconditionally.  There is no dedup check, and
the retention slice is commented out in the source, so no cap is
applied either. -/
def serverAppendHist (now v : Int) (hist : List DataPoint) : List DataPoint :=
  hist ++ [{ timestamp := now, visitors := v, maxCapacity := 300 }]

/-- Iterated server appends: a sequence of successful fetches, each
pushing one point (src/server/server.js, runJob repeatedly invoking
fetchGymData for the same gym). -/
def serverAppendMany (ps : List (Int × Int)) (hist : List DataPoint) : List DataPoint :=
  ps.foldl (fun h p => serverAppendHist p.1 p.2 h) hist

/-- The FacilitySeries invariant of the spec, on a stored history:
at most 5000 entries, sorted ascending (non-decreasing) by timestamp. -/
def SeriesInv (hist : List DataPoint) : Prop :=
  hist.length ≤ 5000 ∧ hist.Chain' (fun a b => a.timestamp ≤ b.timestamp)

instance (hist : List DataPoint) : Decidable (SeriesInv hist) :=
  inferInstanceAs (Decidable (hist.length ≤ 5000 ∧
    hist.Chain' (fun (a b : DataPoint) => a.timestamp ≤ b.timestamp)))

/-- C1 counterexample: the server append (src/server/server.js, lines
156-169) performs no dedup check.  A sample arriving 30000 ms after the
last stored sample (well inside the 60000 ms window) changes the
history, so the append is not a no-op there. -/
theorem C1_server_no_dedup_counterexample :
    (30000 : Int) - (0 : Int) < 60000 ∧
    serverAppendHist 30000 7 [{ timestamp := 0, visitors := 10, maxCapacity := 300 }] ≠
      [{ timestamp := 0, visitors := 10, maxCapacity := 300 }] := by
  exact ⟨by decide, by decide⟩

/-- C1 (amended): in the static updater (src/unnamed/part_000, lines
64-71), if the last stored sample exists and the current time is less
than 60000 ms after it, the append is a no-op: the stored history is
left unchanged and the incoming sample is discarded (given the
retention invariant that the history holds at most 5000 entries, which
appends maintain).  The server append has no such dedup check. -/
theorem C1_updater_dedup_noop (now v : Int) (hist : List DataPoint)
    (last : DataPoint)
    (hlast : hist.getLast? = some last)
    (hrecent : now - last.timestamp < 60000)
    (hlen : hist.length ≤ 5000) :
    updateGym now (some v) hist = hist := by
  unfold updateGym
  simp only [hlast]
  have hcond : ¬ (now - last.timestamp > 60000) := by omega
  simp only [if_neg hcond]
  rw [if_neg (by omega)]

/-- Witness for C1: a concrete dedup-window no-op in the updater. -/
theorem C1_updater_dedup_noop_witness :
    updateGym 30000 (some 7) [{ timestamp := 0, visitors := 10, maxCapacity := 300 }] =
      [{ timestamp := 0, visitors := 10, maxCapacity := 300 }] :=
  C1_updater_dedup_noop 30000 7 _
    { timestamp := 0, visitors := 10, maxCapacity := 300 }
    (by decide) (by decide) (by decide)

theorem sliceLast_length (n : Nat) (l : List α) : (sliceLast n l).length ≤ n := by
  simp only [sliceLast, List.length_drop]
  omega

theorem sliceLast_suffix (n : Nat) (l : List α) : sliceLast n l <:+ l :=
  List.drop_suffix _ _

set_option maxRecDepth 4000 in
theorem updateGym_preserves_inv (now : Int) (res : Option Int)
    (hist : List DataPoint) (h : SeriesInv hist) :
    SeriesInv (updateGym now res hist) := by
  obtain ⟨hlen, hsort⟩ := h
  cases res with
  | none => exact ⟨hlen, hsort⟩
  | some v =>
    cases hl : hist.getLast? with
    | none =>
      have he : hist = [] := List.getLast?_eq_none_iff.mp hl
      subst he
      simp only [updateGym, hl]
      refine ⟨by simp, ?_⟩
      simp only [List.nil_append]
      rw [if_neg (by simp)]
      exact List.chain'_singleton _
    | some last =>
      simp only [updateGym, hl]
      by_cases hc : now - last.timestamp > 60000
      · simp only [if_pos hc]
        have hpush : (hist ++ [({ timestamp := now, visitors := v, maxCapacity := 300 } : DataPoint)]).Chain'
            (fun a b => a.timestamp ≤ b.timestamp) := by
          rw [List.chain'_append]
          refine ⟨hsort, List.chain'_singleton _, ?_⟩
          intro x hx y hy
          rw [hl] at hx
          simp only [Option.mem_def, Option.some.injEq] at hx
          simp only [List.head?_cons, Option.mem_def, Option.some.injEq] at hy
          subst hx; subst hy
          show last.timestamp ≤ now
          omega
        by_cases ht : (hist ++ [({ timestamp := now, visitors := v, maxCapacity := 300 } : DataPoint)]).length > 5000
        · rw [if_pos ht]
          refine ⟨sliceLast_length _ _, ?_⟩
          simp only [sliceLast]
          generalize (hist ++ [({ timestamp := now, visitors := v, maxCapacity := 300 } : DataPoint)]).length - 5000 = k
          exact hpush.suffix (List.drop_suffix _ _)
        · rw [if_neg ht]
          exact ⟨by omega, hpush⟩
      · simp only [if_neg hc]
        rw [if_neg (by omega)]
        exact ⟨hlen, hsort⟩

/-- C2 counterexample: the server append has no retention cap (the
slice is commented out in src/server/server.js, line 167), so 5001
successful server fetches spaced 61000 ms apart grow the history to
5001 entries, exceeding MAX_RETAIN = 5000. -/
theorem C2_server_unbounded_counterexample :
    ¬ (serverAppendMany
        ((List.range 5001).map (fun (i : Nat) => ((61000 : Int) * (i : Int), (0 : Int))))
        []).length ≤ 5000 := by
  have hlen : ∀ (ps : List (Int × Int)) (hist : List DataPoint),
      (serverAppendMany ps hist).length = hist.length + ps.length := by
    intro ps
    induction ps with
    | nil => intro hist; simp [serverAppendMany]
    | cons p ps ih =>
      intro hist
      simp only [serverAppendMany, List.foldl_cons] at *
      rw [ih]
      simp [serverAppendHist]
      omega
  rw [hlen, List.length_map, List.length_range]
  omega

/-- C2 (amended): the static updater's append (src/unnamed/part_000,
lines 64-76) preserves the series invariant — at most 5000 entries,
sorted ascending by timestamp — over any single append and any
sequence of appends, and its result is either the unchanged history
(dedup skip) or a suffix of the history with the new point appended
(entries never reordered, oldest dropped first).  The server append
(src/server/server.js) enforces no cap. -/
theorem C2_updater_retention_sorted (now v : Int) (hist : List DataPoint)
    (ops : List (Int × Option Int)) (hinv : SeriesInv hist) :
    SeriesInv (updateGym now (some v) hist) ∧
    SeriesInv (ops.foldl (fun h p => updateGym p.1 p.2 h) hist) ∧
    (updateGym now (some v) hist = hist ∨
      updateGym now (some v) hist <:+
        hist ++ [{ timestamp := now, visitors := v, maxCapacity := 300 }]) ∧
    updateGym now none hist = hist := by
  refine ⟨updateGym_preserves_inv now (some v) hist hinv, ?_, ?_, rfl⟩
  · induction ops generalizing hist with
    | nil => exact hinv
    | cons p ps ih =>
      simp only [List.foldl_cons]
      exact ih _ (updateGym_preserves_inv p.1 p.2 hist hinv)
  · cases hl : hist.getLast? with
    | none =>
      right
      simp only [updateGym, hl]
      split
      · exact sliceLast_suffix _ _
      · exact List.suffix_refl _
    | some last =>
      by_cases hc : now - last.timestamp > 60000
      · right
        simp only [updateGym, hl, if_pos hc]
        split
        · exact sliceLast_suffix _ _
        · exact List.suffix_refl _
      · left
        simp only [updateGym, hl, if_neg hc]
        rw [if_neg (by have := hinv.1; omega)]

/-- Witness for C2 at a concrete series: one append at t = 70000 on a
one-point sorted history keeps the invariant and appends at the end. -/
theorem C2_updater_retention_sorted_witness :
    SeriesInv (updateGym 70000 (some 5) [{ timestamp := 0, visitors := 10, maxCapacity := 300 }]) ∧
    SeriesInv (([((70000 : Int), some (5 : Int))]).foldl
      (fun h p => updateGym p.1 p.2 h) [{ timestamp := 0, visitors := 10, maxCapacity := 300 }]) ∧
    (updateGym 70000 (some 5) [{ timestamp := 0, visitors := 10, maxCapacity := 300 }] =
        [{ timestamp := 0, visitors := 10, maxCapacity := 300 }] ∨
      updateGym 70000 (some 5) [{ timestamp := 0, visitors := 10, maxCapacity := 300 }] <:+
        [{ timestamp := 0, visitors := 10, maxCapacity := 300 }] ++
          [{ timestamp := 70000, visitors := 5, maxCapacity := 300 }]) ∧
    updateGym 70000 none [{ timestamp := 0, visitors := 10, maxCapacity := 300 }] =
      [{ timestamp := 0, visitors := 10, maxCapacity := 300 }] :=
  C2_updater_retention_sorted 70000 5
    [{ timestamp := 0, visitors := 10, maxCapacity := 300 }]
    [((70000 : Int), some (5 : Int))]
    ⟨by norm_num, List.chain'_singleton _⟩

/-- The gym configuration of the client (GymConfig in
src/unnamed/part_002). -/
structure GymConfig where
  id : String
  name : String
  parkId : String
  locationId : String
  locationName : String
deriving DecidableEq

/-- The per-facility state of the client (GymData in
src/unnamed/part_002): config, optional current point, history,
lastUpdated (epoch ms). -/
structure GymData where
  config : GymConfig
  current : Option DataPoint
  history : List DataPoint
  lastUpdated : Int
deriving DecidableEq

/-- The origin tag returned by loadGyms in gymService
(src/server/server.js, line 251): server = primary live service,
cloud = published snapshot, local = browser cache or seed data. -/
inductive DataSource
  | server
  | cloud
  | local
deriving DecidableEq

/-- DEFAULT_GYMS of gymService (src/server/server.js, lines 241-249). -/
def DEFAULT_GYMS : List GymConfig :=
  [{ id := "glattpark", name := "FP Glattpark", parkId := "698",
     locationId := "31", locationName := "FP_Glattpark" }]

/-- historyDb[config.id] || [] -/
def lookupHist (db : List (String × List DataPoint)) (id : String) :
    List DataPoint :=
  match db.lookup id with
  | some h => h
  | none => []

/-- loadGyms of gymService (src/server/server.js, lines 251-315).
The three fallible reads are modelled by Option-valued parameters:
serverResp is the parsed body of GET /api/gyms when the local server
tier succeeds, cloudResp the parsed static gym_history.json document
when the cloud tier succeeds, localStored the browser-storage item
(some none = an item exists but fails to parse).  seedHistory stands
for parseRawData(RAW_DATA_GLATTPARK) from src/data/initialData (a
repository file not under src/), whose contents no claim depends on.
now is Date.now() for the seed branch.  Tiers are tried in order,
stopping at the first success. -/
def loadGyms (serverResp : Option (List GymData))
    (cloudResp : Option (List (String × List DataPoint)))
    (localStored : Option (Option (List GymData)))
    (seedHistory : List DataPoint) (now : Int) : List GymData × DataSource :=
  match serverResp with
  | some serverData => (serverData, .server)
  | none =>
    match cloudResp with
    | some historyDb =>
      (DEFAULT_GYMS.map (fun config =>
        let history := lookupHist historyDb config.id
        let lastPoint := history.getLast?
        { config := config, history := history, current := lastPoint,
          lastUpdated := match lastPoint with | some p => p.timestamp | none => 0 }),
       .cloud)
    | none =>
      match localStored with
      | some (some parsed) => (parsed, .local)
      | _ =>
        (DEFAULT_GYMS.map (fun config =>
          let history := if config.id = "glattpark" then seedHistory else []
          let lastPoint := history.getLast?
          { config := config, history := history, current := lastPoint,
            lastUpdated := match lastPoint with | some p => p.timestamp | none => now }),
         .local)

/-- C3: the resolver tries the tiers in strict order and stops at the
first success, tagging the whole load with that tier's origin and
never mixing tiers: a reachable primary wins outright for any state of
the lower tiers; with the primary down, a reachable snapshot wins and
the result is independent of the cache and seed; with both down the
tag is local (cache contents if they parse, otherwise seed data). -/
theorem C3_resolver_tier_order :
    (∀ d cloudResp localStored seedHistory now,
      loadGyms (some d) cloudResp localStored seedHistory now = (d, DataSource.server)) ∧
    (∀ historyDb ls1 ls2 sh1 sh2 now1 now2,
      loadGyms none (some historyDb) ls1 sh1 now1 =
        loadGyms none (some historyDb) ls2 sh2 now2 ∧
      (loadGyms none (some historyDb) ls1 sh1 now1).2 = DataSource.cloud) ∧
    (∀ parsed seedHistory now,
      loadGyms none none (some (some parsed)) seedHistory now =
        (parsed, DataSource.local)) ∧
    (∀ localStored seedHistory now,
      (loadGyms none none localStored seedHistory now).2 = DataSource.local) := by
  refine ⟨fun d cloudResp localStored seedHistory now => rfl,
    fun historyDb ls1 ls2 sh1 sh2 now1 now2 => ⟨rfl, rfl⟩,
    fun parsed seedHistory now => rfl,
    fun localStored seedHistory now => ?_⟩
  match localStored with
  | none => rfl
  | some none => rfl
  | some (some parsed) => rfl

/-- The value of a maximal leading run of decimal digits, none when the
run is empty (the NaN case of JS parseInt: characters after the run are
ignored). -/
def parseDigits (cs : List Char) : Option Nat :=
  let ds := cs.takeWhile Char.isDigit
  if ds.isEmpty then none
  else some (ds.foldl (fun acc c => 10 * acc + (c.toNat - 48)) 0)

/-- JS String.prototype.trim: strip whitespace from both ends. -/
def jsTrim (s : String) : List Char :=
  ((s.data.dropWhile Char.isWhitespace).reverse.dropWhile Char.isWhitespace).reverse

/-- JS parseInt(s.trim(), 10) as called by the sampler: after the trim,
an optional sign followed by a maximal digit run; none models NaN
(empty string, no digits after the sign, or a non-digit first
character). -/
def parseIntJS (s : String) : Option Int :=
  match jsTrim s with
  | [] => none
  | c :: cs =>
    if c = '-' then (parseDigits cs).map (fun n => -(n : Int))
    else if c = '+' then (parseDigits cs).map (fun n => (n : Int))
    else (parseDigits (c :: cs)).map (fun n => (n : Int))

/-- Outcome of the one HTTP request issued by the sampler. -/
inductive FetchResult
  | netError
  | response (ok : Bool) (body : String)
deriving DecidableEq

/-- fetchGymData of gymService (src/server/server.js, lines 346-386;
the server-side copy at lines 139-177 has the same parse and
validation logic): a network error, a non-ok status, or a body whose
trimmed text does not parse as an integer all yield null (none); on
success the sample carries timestamp Date.now(), the parsed visitors
value, and the static capacity constant 300. -/
def fetchGymData (now : Int) (r : FetchResult) : Option DataPoint :=
  match r with
  | .netError => none
  | .response ok body =>
    if !ok then none
    else
      match parseIntJS body with
      | none => none
      | some visitors => some { timestamp := now, visitors := visitors, maxCapacity := 300 }

/-- C4 counterexample: the sampler has no negativity check — JS
parseInt("-5") is -5, not NaN, so an ok response with body "-5" is
returned as a success sample with visitors = -5, where the claim
demands a Failure. -/
theorem C4_negative_accepted_counterexample :
    fetchGymData 0 (FetchResult.response true "-5") =
      some { timestamp := 0, visitors := -5, maxCapacity := 300 } ∧
    ({ timestamp := 0, visitors := -5, maxCapacity := 300 } : DataPoint).visitors < 0 := by
  exact ⟨by decide, by decide⟩

/-- C4 (amended): the sampler returns a Failure (none, never an
uncaught exception) exactly when a network error occurs, the HTTP
status is non-success, or the trimmed body does not parse as an
integer; a parsed negative value is NOT rejected.  On success it
returns a sample with timestamp now, visitors equal to the parsed
value (whatever its sign), and capacity equal to the static constant
300, never derived from the response. -/
theorem C4_sampler_failure_modes (now : Int) (body : String) :
    fetchGymData now FetchResult.netError = none ∧
    fetchGymData now (FetchResult.response false body) = none ∧
    (parseIntJS body = none →
      fetchGymData now (FetchResult.response true body) = none) ∧
    (∀ v, parseIntJS body = some v →
      fetchGymData now (FetchResult.response true body) =
        some { timestamp := now, visitors := v, maxCapacity := 300 }) := by
  refine ⟨rfl, rfl, fun h => ?_, fun v h => ?_⟩
  · simp [fetchGymData, h]
  · simp [fetchGymData, h]

/-- Witness for C4: a body of "42" with an ok status yields the sample
(now = 0, visitors = 42, capacity = 300); a body of "abc" yields none. -/
theorem C4_sampler_failure_modes_witness :
    fetchGymData 0 (FetchResult.response true "42") =
      some { timestamp := 0, visitors := 42, maxCapacity := 300 } ∧
    fetchGymData 0 (FetchResult.response true "abc") = none :=
  ⟨(C4_sampler_failure_modes 0 "42").2.2.2 42 (by decide),
   (C4_sampler_failure_modes 0 "abc").2.2.1 (by decide)⟩

/-- State of the backing document gym_history.json at load time:
missing, present but not valid JSON, or present and parsing to a db
mapping facility ids to histories. -/
inductive FileState
  | absent
  | corrupt
  | valid (db : List (String × List DataPoint))
deriving DecidableEq

/-- initDB of src/server/server.js (lines 108-132).  When the file
exists it is read and JSON.parse is applied with NO try/catch, so a
corrupt file raises out of initDB and aborts startup — modelled as
Except.error.  When the file is absent the parsed seed history
(seedDb, standing for the RAW_SEED_DATA parse at lines 116-129) is
installed and saved. -/
def initDB (file : FileState) (seedDb : List (String × List DataPoint)) :
    Except Unit (List (String × List DataPoint)) :=
  match file with
  | .absent => .ok seedDb
  | .corrupt => .error ()
  | .valid db => .ok db

/-- The load step of run() in the static updater (src/unnamed/part_000,
lines 42-49): db starts empty, and the JSON.parse of an existing file
is wrapped in try/catch, so a corrupt or missing file leaves the empty
db ("starting fresh") and the run continues. -/
def updaterLoadDB (file : FileState) : List (String × List DataPoint) :=
  match file with
  | .absent => []
  | .corrupt => []
  | .valid db => db

/-- C5 counterexample: the server's initDB (src/server/server.js,
lines 108-132) does not catch the JSON.parse error, so a corrupt
backing document is fatal to startup instead of yielding the empty
mapping. -/
theorem C5_server_load_fatal_counterexample :
    initDB FileState.corrupt [] = Except.error () ∧
    initDB FileState.corrupt [] ≠ Except.ok [] := by
  exact ⟨rfl, by simp [initDB]⟩

/-- C5 (amended): in the static updater (src/unnamed/part_000, lines
42-49), a malformed or missing backing document on load yields the
empty mapping and is never fatal — the run continues with fresh state.
The server's initDB, by contrast, lets the JSON.parse error escape, so
a corrupt document aborts startup there. -/
theorem C5_updater_load_recovers (file : FileState)
    (h : file = FileState.absent ∨ file = FileState.corrupt) :
    updaterLoadDB file = [] := by
  rcases h with h | h <;> rw [h] <;> rfl

/-- Witness for C5: loading a corrupt document in the updater yields
the empty db. -/
theorem C5_updater_load_recovers_witness :
    updaterLoadDB FileState.corrupt = [] :=
  C5_updater_load_recovers FileState.corrupt (Or.inr rfl)

/-- A trigger event of the client refresh scheduler
(src/unnamed/part_000, App component). -/
inductive RefreshTrigger
  | timerTick
  | buttonClick
  | staleCheck (stale : Bool)
  | batchDone
deriving DecidableEq

/-- Scheduler state: the isLoading React flag, plus the number of
batches currently in flight. -/
structure SchedState where
  isLoading : Bool
  running : Nat
deriving DecidableEq

/-- One scheduler event of the client app (src/unnamed/part_000, lines
161-207 and the refresh button at line 313): refreshAllGyms sets
isLoading and starts a batch; the refresh button is disabled while
isLoading; the staleness effect calls refreshAllGyms only when
isLoading is false and some gym is stale; the 30-minute interval
callback calls refreshAllGyms unconditionally; a finishing batch
clears isLoading. -/
def schedStep (s : SchedState) : RefreshTrigger → SchedState
  | .timerTick => { isLoading := true, running := s.running + 1 }
  | .buttonClick =>
      if s.isLoading then s else { isLoading := true, running := s.running + 1 }
  | .staleCheck stale =>
      if !s.isLoading && stale then { isLoading := true, running := s.running + 1 }
      else s
  | .batchDone => { isLoading := false, running := s.running - 1 }

/-- A run of the scheduler from the initial state (not loading, no
batch in flight). -/
def schedRun (ts : List RefreshTrigger) : SchedState :=
  ts.foldl schedStep { isLoading := false, running := 0 }

/-- C6 counterexample: two consecutive 30-minute timer ticks, the
second arriving before the first batch finishes, leave two overlapping
batches in flight — the interval callback invokes refreshAllGyms with
no guard, so "at most one batch running" fails. -/
theorem C6_overlapping_batches_counterexample :
    (schedRun [RefreshTrigger.timerTick, RefreshTrigger.timerTick]).running = 2 ∧
    ¬ (schedRun [RefreshTrigger.timerTick, RefreshTrigger.timerTick]).running ≤ 1 := by
  exact ⟨rfl, by decide⟩

/-- C6 (amended): the manual refresh button and the startup staleness
check are guarded by the isLoading flag — while a batch is running they
are dropped (never queued), leaving the state unchanged — but the
periodic timer tick starts a batch unconditionally, so a tick arriving
while a batch is running does start a second overlapping batch (and
the server's POST /api/refresh and its own interval are equally
unguarded). -/
theorem C6_guarded_triggers_dropped (s : SchedState)
    (h : s.isLoading = true) :
    schedStep s RefreshTrigger.buttonClick = s ∧
    (∀ stale, schedStep s (RefreshTrigger.staleCheck stale) = s) ∧
    (schedStep s RefreshTrigger.timerTick).running = s.running + 1 := by
  refine ⟨?_, fun stale => ?_, rfl⟩
  · simp [schedStep, h]
  · simp [schedStep, h]

/-- Witness for C6: with one batch in flight, a button click and a
staleness check change nothing, a timer tick raises the batch count. -/
theorem C6_guarded_triggers_dropped_witness :
    schedStep { isLoading := true, running := 1 } RefreshTrigger.buttonClick =
      { isLoading := true, running := 1 } ∧
    schedStep { isLoading := true, running := 1 } (RefreshTrigger.staleCheck true) =
      { isLoading := true, running := 1 } ∧
    (schedStep { isLoading := true, running := 1 } RefreshTrigger.timerTick).running = 2 :=
  ⟨(C6_guarded_triggers_dropped { isLoading := true, running := 1 } rfl).1,
   (C6_guarded_triggers_dropped { isLoading := true, running := 1 } rfl).2.1 true,
   (C6_guarded_triggers_dropped { isLoading := true, running := 1 } rfl).2.2⟩

/-- One observable event of a batch: a per-facility fetch, or a write
of the whole backing document. -/
inductive BatchEv
  | fetchEv (id : String)
  | saveEv
deriving DecidableEq

/-- Event trace of runJob in src/server/server.js (lines 179-183):
fetchGymData runs for each gym in order, and inside fetchGymData a
successful fetch pushes the point and immediately calls saveDB (line
169) — a full-document write — before the next gym is fetched.  A
failed fetch produces no write. -/
def serverRunJobTrace (results : String → Option Int) (ids : List String) :
    List BatchEv :=
  ids.foldr (fun id acc =>
    BatchEv.fetchEv id ::
      (match results id with
       | some _ => BatchEv.saveEv :: acc
       | none => acc)) []

/-- Event trace of run() in the static updater (src/unnamed/part_000,
lines 52-82): every gym is fetched in order (appends happen in memory
only), then a single full-document writeFileSync runs at the end,
regardless of per-gym outcomes. -/
def updaterRunTrace (ids : List String) : List BatchEv :=
  ids.map BatchEv.fetchEv ++ [BatchEv.saveEv]

/-- C7 counterexample: in the server's runJob with two gyms whose
fetches both succeed, a save is executed after the first facility and
before the second facility's fetch — the write is interleaved
per-facility, not the last step of the batch. -/
theorem C7_server_save_interleaved_counterexample :
    serverRunJobTrace (fun _ => some 1) ["a", "b"] =
      [BatchEv.fetchEv "a", BatchEv.saveEv, BatchEv.fetchEv "b", BatchEv.saveEv] ∧
    serverRunJobTrace (fun _ => some 1) ["a", "b"] ≠
      ["a", "b"].map BatchEv.fetchEv ++ [BatchEv.saveEv] := by
  exact ⟨rfl, by decide⟩

/-- C7 (amended): in the static updater the persistence write is a
single full-document overwrite executed as the last step of the batch:
it is the final event of the trace, it occurs exactly once, and every
earlier event is a per-facility fetch.  In the server's runJob the
full-document write instead runs inside each successful per-facility
fetch, interleaved within the batch. -/
theorem C7_updater_save_last (ids : List String) :
    (updaterRunTrace ids).getLast? = some BatchEv.saveEv ∧
    (∀ e, e ∈ (updaterRunTrace ids).dropLast → e ≠ BatchEv.saveEv) ∧
    (updaterRunTrace ids).count BatchEv.saveEv = 1 := by
  refine ⟨List.getLast?_concat _, ?_, ?_⟩
  · intro e he
    rw [updaterRunTrace, List.dropLast_concat] at he
    obtain ⟨id, _, rfl⟩ := List.mem_map.mp he
    intro hcontra
    exact BatchEv.noConfusion hcontra
  · rw [updaterRunTrace, List.count_append]
    have h0 : (ids.map BatchEv.fetchEv).count BatchEv.saveEv = 0 := by
      rw [List.count_eq_zero]
      intro hmem
      obtain ⟨id, _, h⟩ := List.mem_map.mp hmem
      exact BatchEv.noConfusion h
    rw [h0]
    rfl

/-- Witness for C7: a one-gym updater batch fetches, then saves last. -/
theorem C7_updater_save_last_witness :
    (updaterRunTrace ["a"]).getLast? = some BatchEv.saveEv ∧
    BatchEv.fetchEv "a" ≠ BatchEv.saveEv ∧
    (updaterRunTrace ["a"]).count BatchEv.saveEv = 1 :=
  ⟨(C7_updater_save_last ["a"]).1,
   (C7_updater_save_last ["a"]).2.1 (BatchEv.fetchEv "a") (by decide),
   (C7_updater_save_last ["a"]).2.2⟩

/-- One gym's update inside refreshAllGyms (src/unnamed/part_000,
lines 167-185): a failed fetch (none) keeps the gym's old
history/current state; a successful fetch appends the new point,
slices to the last 5000, sets current to the new point and lastUpdated
to Date.now(). -/
def refreshGym (now : Int) (newDataPoint : Option DataPoint) (gym : GymData) :
    GymData :=
  match newDataPoint with
  | none => gym
  | some p =>
    { gym with
      current := some p,
      history := sliceLast 5000 (gym.history ++ [p]),
      lastUpdated := now }

/-- refreshAllGyms (src/unnamed/part_000, lines 161-189): every tracked
gym is mapped through its own fetch result, keyed by its config id. -/
def refreshAllGyms (now : Int) (results : String → Option DataPoint)
    (gyms : List GymData) : List GymData :=
  gyms.map (fun gym => refreshGym now (results gym.config.id) gym)

/-- C8: a facility whose sample fails is left untouched — the whole
GymData record, hence history, current and lastUpdated, is returned
unchanged — and facilities are sampled independently: the entry at any
position of the batch result depends only on that gym and its own
fetch result, so another facility's failure cannot change it. -/
theorem C8_failure_untouched_independent (now : Int)
    (results results2 : String → Option DataPoint) (gyms : List GymData) :
    (∀ gym, results gym.config.id = none →
      refreshGym now (results gym.config.id) gym = gym) ∧
    (∀ (i : Nat) (g : GymData), gyms[i]? = some g →
      results g.config.id = results2 g.config.id →
      (refreshAllGyms now results gyms)[i]? =
        (refreshAllGyms now results2 gyms)[i]?) := by
  constructor
  · intro gym h
    rw [h]
    rfl
  · intro i g hg hr
    simp only [refreshAllGyms, List.getElem?_map, hg, Option.map_some', hr]

/-- Witness for C8: with a one-gym batch whose fetch fails, the gym is
returned unchanged and the batch entry agrees for any two result maps
that agree on its id. -/
theorem C8_failure_untouched_independent_witness :
    (refreshGym 5 ((fun _ => (none : Option DataPoint)) "glattpark")
        { config := { id := "glattpark", name := "FP Glattpark", parkId := "698",
                      locationId := "31", locationName := "FP_Glattpark" },
          current := none, history := [], lastUpdated := 0 } =
      { config := { id := "glattpark", name := "FP Glattpark", parkId := "698",
                    locationId := "31", locationName := "FP_Glattpark" },
        current := none, history := [], lastUpdated := 0 }) ∧
    (refreshAllGyms 5 (fun _ => none)
        [{ config := { id := "glattpark", name := "FP Glattpark", parkId := "698",
                       locationId := "31", locationName := "FP_Glattpark" },
           current := none, history := [], lastUpdated := 0 }])[0]? =
      (refreshAllGyms 5 (fun q => if q = "other" then some { timestamp := 1, visitors := 2, maxCapacity := 300 } else none)
        [{ config := { id := "glattpark", name := "FP Glattpark", parkId := "698",
                       locationId := "31", locationName := "FP_Glattpark" },
           current := none, history := [], lastUpdated := 0 }])[0]? :=
  ⟨(C8_failure_untouched_independent 5 (fun _ => none) (fun _ => none) []).1
      { config := { id := "glattpark", name := "FP Glattpark", parkId := "698",
                    locationId := "31", locationName := "FP_Glattpark" },
        current := none, history := [], lastUpdated := 0 } rfl,
   (C8_failure_untouched_independent 5 (fun _ => none)
      (fun q => if q = "other" then some { timestamp := 1, visitors := 2, maxCapacity := 300 } else none)
      [{ config := { id := "glattpark", name := "FP Glattpark", parkId := "698",
                     locationId := "31", locationName := "FP_Glattpark" },
         current := none, history := [], lastUpdated := 0 }]).2 0
      { config := { id := "glattpark", name := "FP Glattpark", parkId := "698",
                    locationId := "31", locationName := "FP_Glattpark" },
        current := none, history := [], lastUpdated := 0 } rfl (by decide)⟩

/-- One day (24 hours) in milliseconds. -/
def oneDayMs : Int := 24 * 60 * 60 * 1000

/-- The data selection of RecentActivityChart (src/unnamed/part_002,
lines 120-140): keep the samples with timestamp strictly after
now - 24h; when that filter is empty and the history is non-empty,
fall back to the last 20 entries of the history (slice(-20)).  The
chart then maps each selected sample one-to-one, in order, to a
display record, so the selection determines the chart contents. -/
def recentSelection (now : Int) (data : List DataPoint) : List DataPoint :=
  let recent := data.filter (fun d => now - oneDayMs < d.timestamp)
  if recent.length = 0 ∧ 0 < data.length then sliceLast 20 data else recent

/-- C9: the recent-window aggregate returns exactly the samples less
than 24 hours old (strictly newer than now - 24h) whenever any
qualify; if none qualify it returns the last 20 entries of the history
in their original order (all of them when the history is shorter),
regardless of age — in particular, for a history entirely older than
24 hours with at least 20 entries, exactly the last 20 entries.  The
selection is a pure function of (now, history), hence deterministic. -/
theorem C9_recent_window (now : Int) (data : List DataPoint) :
    (data.filter (fun d => now - oneDayMs < d.timestamp) ≠ [] →
      recentSelection now data =
        data.filter (fun d => now - oneDayMs < d.timestamp) ∧
      ∀ d, d ∈ recentSelection now data ↔
        d ∈ data ∧ now - oneDayMs < d.timestamp) ∧
    ((∀ d ∈ data, d.timestamp ≤ now - oneDayMs) →
      recentSelection now data = data.drop (data.length - 20)) ∧
    ((∀ d ∈ data, d.timestamp ≤ now - oneDayMs) → 20 ≤ data.length →
      (recentSelection now data).length = 20) := by
  have hfe : (∀ d ∈ data, d.timestamp ≤ now - oneDayMs) →
      data.filter (fun d => now - oneDayMs < d.timestamp) = [] := by
    intro h
    rw [List.filter_eq_nil_iff]
    intro a ha
    simp only [decide_eq_true_eq]
    have := h a ha
    omega
  have hdrop : (∀ d ∈ data, d.timestamp ≤ now - oneDayMs) →
      recentSelection now data = data.drop (data.length - 20) := by
    intro h
    unfold recentSelection
    rw [hfe h]
    cases data with
    | nil => rfl
    | cons a as =>
      rw [if_pos ⟨rfl, by simp⟩]
      rfl
  refine ⟨fun hne => ?_, hdrop, fun h h20 => ?_⟩
  · have hcond : ¬ ((data.filter (fun d => now - oneDayMs < d.timestamp)).length = 0 ∧
        0 < data.length) := by
      intro ⟨h0, _⟩
      exact hne (List.length_eq_zero.mp h0)
    constructor
    · unfold recentSelection
      rw [if_neg hcond]
    · intro d
      unfold recentSelection
      rw [if_neg hcond]
      rw [List.mem_filter]
      simp only [decide_eq_true_eq]
  · rw [hdrop h, List.length_drop]
    omega

/-- Witness for C9: a single sample exactly 24 hours old does not pass
the window filter, so the fallback returns the whole (shorter than 20)
history unchanged, and its length is not 20 only because the history
is shorter — a 20-entry-old history keeps exactly its last 20.  Here:
the one-point case, returned in full. -/
theorem C9_recent_window_witness :
    recentSelection 86400000 [{ timestamp := 0, visitors := 1, maxCapacity := 300 }] =
      List.drop ([({ timestamp := 0, visitors := 1, maxCapacity := 300 } : DataPoint)].length - 20)
        [{ timestamp := 0, visitors := 1, maxCapacity := 300 }] :=
  (C9_recent_window 86400000
    [{ timestamp := 0, visitors := 1, maxCapacity := 300 }]).2.1 (by decide)

/-- JS Date#getDay for an epoch-ms timestamp, at a fixed UTC offset tz
(in ms) modelling the browser's local timezone: epoch day 0
(1970-01-01) was a Thursday, so getDay = (floor((ts+tz)/86400000) + 4)
mod 7, giving 0 = Sunday .. 6 = Saturday. -/
def getDayJS (tz ts : Int) : Nat :=
  (((ts + tz).fdiv 86400000 + 4) % 7).toNat

/-- JS Math.round(s / c) for an integer sum s and a positive integer
count c: Math.round rounds half toward positive infinity, so
round(s/c) = floor(s/c + 1/2) = floor((2s + c) / (2c)). -/
def mathRoundDiv (s : Int) (c : Nat) : Int :=
  (2 * s + (c : Int)).fdiv (2 * (c : Int))

/-- The body of the forEach of DayAverageChart (src/unnamed/part_002,
lines 178-182): add the point's visitors to the sums bucket of its day
of week and bump the matching counts bucket.  The length-7 JS arrays
sums and counts are modelled as functions from bucket index. -/
def dayStep (tz : Int) (sc : (Nat → Int) × (Nat → Nat)) (d : DataPoint) :
    (Nat → Int) × (Nat → Nat) :=
  let i := getDayJS tz d.timestamp
  (Function.update sc.1 i (sc.1 i + d.visitors),
   Function.update sc.2 i (sc.2 i + 1))

/-- The sums/counts accumulation of DayAverageChart over the whole
history, starting from all-zero buckets. -/
def dayAccum (tz : Int) (data : List DataPoint) : (Nat → Int) × (Nat → Nat) :=
  data.foldl (dayStep tz) (fun _ => 0, fun _ => 0)

/-- DayAverageChart (src/unnamed/part_002, lines 171-188): one bar per
day of week, carrying Math.round(sums[i]/counts[i]) when counts[i] > 0
and 0 otherwise. -/
def dayAverageChart (tz : Int) (data : List DataPoint) : List Int :=
  (List.range 7).map (fun i =>
    if 0 < (dayAccum tz data).2 i then
      mathRoundDiv ((dayAccum tz data).1 i) ((dayAccum tz data).2 i)
    else 0)

theorem mathRoundDiv_one (v : Int) : mathRoundDiv v 1 = v := by
  unfold mathRoundDiv
  rw [Int.fdiv_eq_ediv _ (by norm_num)]
  omega

theorem dayAccum_foldl (tz : Int) (data : List DataPoint)
    (s : Nat → Int) (c : Nat → Nat) (i : Nat) :
    ((data.foldl (dayStep tz) (s, c)).1 i =
      s i + ((data.filter (fun d => getDayJS tz d.timestamp == i)).map
        (fun d => d.visitors)).sum) ∧
    ((data.foldl (dayStep tz) (s, c)).2 i =
      c i + (data.filter (fun d => getDayJS tz d.timestamp == i)).length) := by
  induction data generalizing s c with
  | nil => simp
  | cons d rest ih =>
    simp only [List.foldl_cons, List.filter_cons]
    by_cases hd : getDayJS tz d.timestamp = i
    · rw [if_pos (by simpa using hd)]
      have := ih (Function.update s (getDayJS tz d.timestamp)
          (s (getDayJS tz d.timestamp) + d.visitors))
        (Function.update c (getDayJS tz d.timestamp)
          (c (getDayJS tz d.timestamp) + 1))
      rw [dayStep] at *
      refine ⟨?_, ?_⟩
      · rw [this.1, hd, Function.update_same, List.map_cons, List.sum_cons]
        omega
      · rw [this.2, hd, Function.update_same, List.length_cons]
        omega
    · rw [if_neg (by simpa using hd)]
      have := ih (Function.update s (getDayJS tz d.timestamp)
          (s (getDayJS tz d.timestamp) + d.visitors))
        (Function.update c (getDayJS tz d.timestamp)
          (c (getDayJS tz d.timestamp) + 1))
      rw [dayStep] at *
      refine ⟨?_, ?_⟩
      · rw [this.1, Function.update_noteq (fun h => hd h.symm)]
      · rw [this.2, Function.update_noteq (fun h => hd h.symm)]

/-- C10: the weekday-average aggregate groups all samples into 7
day-of-week buckets (for the fixed-offset local clock tz) and averages
visitors per bucket; a bucket with no samples reports 0 — the output
is a total list of integers, never null or NaN; for a history with
exactly one sample on each weekday the bucket values are exactly those
samples' visitors values; and for an empty history every bucket
reports 0. -/
theorem C10_weekday_average :
    (∀ tz : Int, dayAverageChart tz [] = List.replicate 7 0) ∧
    (∀ (tz : Int) (data : List DataPoint) (i : Nat), i < 7 →
      data.filter (fun d => getDayJS tz d.timestamp == i) = [] →
      (dayAverageChart tz data).getD i 0 = 0) ∧
    (∀ tz t0 t1 t2 t3 t4 t5 t6 v0 v1 v2 v3 v4 v5 v6 : Int,
      getDayJS tz t0 = 0 → getDayJS tz t1 = 1 → getDayJS tz t2 = 2 →
      getDayJS tz t3 = 3 → getDayJS tz t4 = 4 → getDayJS tz t5 = 5 →
      getDayJS tz t6 = 6 →
      dayAverageChart tz
        [{ timestamp := t0, visitors := v0, maxCapacity := 300 },
         { timestamp := t1, visitors := v1, maxCapacity := 300 },
         { timestamp := t2, visitors := v2, maxCapacity := 300 },
         { timestamp := t3, visitors := v3, maxCapacity := 300 },
         { timestamp := t4, visitors := v4, maxCapacity := 300 },
         { timestamp := t5, visitors := v5, maxCapacity := 300 },
         { timestamp := t6, visitors := v6, maxCapacity := 300 }] =
        [v0, v1, v2, v3, v4, v5, v6]) := by
  refine ⟨fun tz => rfl, ?_, ?_⟩
  · intro tz data i hi7 hfil
    have hcount : (dayAccum tz data).2 i =
        (0 : Nat) + (data.filter (fun d => getDayJS tz d.timestamp == i)).length :=
      (dayAccum_foldl tz data (fun _ => 0) (fun _ => 0) i).2
    rw [hfil] at hcount
    simp only [List.length_nil, Nat.add_zero] at hcount
    unfold dayAverageChart
    rw [List.getD_eq_getElem?_getD, List.getElem?_map, List.getElem?_range hi7]
    simp only [Option.map_some', Option.getD_some]
    rw [if_neg (by omega)]
  · intro tz t0 t1 t2 t3 t4 t5 t6 v0 v1 v2 v3 v4 v5 v6 h0 h1 h2 h3 h4 h5 h6
    simp only [dayAverageChart, dayAccum, dayStep, List.foldl_cons, List.foldl_nil,
      h0, h1, h2, h3, h4, h5, h6]
    norm_num [Function.update_apply, List.range_succ, mathRoundDiv_one,
      h0, h1, h2, h3, h4, h5, h6]

/-- Witness for C10: seven samples, one on each consecutive UTC day
starting Sunday 1970-01-04, with visitors 10..70, average to exactly
[10, 20, 30, 40, 50, 60, 70]; and a bucket with no matching samples
(Sunday, for a single Thursday sample) reports 0. -/
theorem C10_weekday_average_witness :
    dayAverageChart 0
      [{ timestamp := 259200000, visitors := 10, maxCapacity := 300 },
       { timestamp := 345600000, visitors := 20, maxCapacity := 300 },
       { timestamp := 432000000, visitors := 30, maxCapacity := 300 },
       { timestamp := 518400000, visitors := 40, maxCapacity := 300 },
       { timestamp := 604800000, visitors := 50, maxCapacity := 300 },
       { timestamp := 691200000, visitors := 60, maxCapacity := 300 },
       { timestamp := 777600000, visitors := 70, maxCapacity := 300 }] =
      [10, 20, 30, 40, 50, 60, 70] ∧
    (dayAverageChart 0 [{ timestamp := 0, visitors := 9, maxCapacity := 300 }]).getD 0 0 = 0 :=
  ⟨C10_weekday_average.2.2 0 259200000 345600000 432000000 518400000 604800000
      691200000 777600000 10 20 30 40 50 60 70
      (by decide) (by decide) (by decide) (by decide) (by decide) (by decide) (by decide),
   C10_weekday_average.2.1 0 [{ timestamp := 0, visitors := 9, maxCapacity := 300 }]
      0 (by decide) (by decide)⟩
